import Mathlib

set_option maxRecDepth 20000

/-! Shallow embedding of the role-based static-analysis engine in
`scripts/role_review.py`: the data model (Issue, AST nodes, source units),
the five rule checkers, the issue aggregator and the process verdict. -/

/-! ### String helpers (modelling Python `in`, `startswith`, `lower`, `strip`) -/

/-- Python `s.startswith(pre)`, on the character lists. -/
def strStarts (s pre : String) : Bool := pre.data.isPrefixOf s.data

/-- Occurrence of the character sequence `p` anywhere in a list. -/
def containsSeq (p : List Char) : List Char → Bool
  | [] => p.isEmpty
  | c :: rest => p.isPrefixOf (c :: rest) || containsSeq p rest

/-- Python `pat in s` substring test. -/
def containsSub (s pat : String) : Bool := containsSeq pat.data s.data

/-- Python `s.lower()` (ASCII case folding). -/
def lowerStr (s : String) : String := ⟨s.data.map Char.toLower⟩

/-- Python whitespace characters removed by `str.strip()`. -/
def isPySpace (c : Char) : Bool :=
  c == ' ' || c == '\t' || c == '\n' || c == '\r' || c == '\x0b' || c == '\x0c'

/-- Python `s.strip()`. -/
def stripStr (s : String) : String :=
  ⟨((s.data.dropWhile isPySpace).reverse.dropWhile isPySpace).reverse⟩

/-! ### Thresholds (module constants of `role_review.py`) -/

def MAX_FILE_LINES : Nat := 200
def MAX_FUNCTION_LINES : Nat := 30
def MAX_FUNCTION_ARGS : Nat := 5
def MAX_CLASS_METHODS : Nat := 10
def MAX_IMPORTS : Nat := 15
def MAX_CLASSES_PER_FILE : Nat := 2

/-! ### Data model -/

/-- Review issue found by a role (the `Issue` dataclass). -/
structure Issue where
  role : String
  file : String
  line : Nat
  message : String
deriving DecidableEq, Repr

/-- Syntactic category of an AST node, the closed set the checkers dispatch on. -/
inductive Kind where
  | module | functionDef | asyncFunctionDef | classDef | callExpr | assertStmt
  | exceptHandler | importStmt | importFrom | other
deriving DecidableEq, Repr

mutual
/-- An AST node: kind, 1-based line span, optional name, positional-argument
count (`len(node.args.args)`, meaningful for function definitions), callee
identifier for calls whose target is a simple name, presence of a return
annotation, presence of a handler exception type, and child nodes. -/
inductive Ast where
  | mk (kind : Kind) (lineno : Nat) (endLineno : Option Nat) (name : String)
       (argsArgs : Nat) (callee : Option String) (hasReturns : Bool) (hasExcType : Bool)
       (children : AstList)
/-- Ordered children of an AST node. -/
inductive AstList where
  | nil
  | cons (head : Ast) (tail : AstList)
end

def Ast.kind : Ast → Kind
  | .mk k _ _ _ _ _ _ _ _ => k

def Ast.lineno : Ast → Nat
  | .mk _ l _ _ _ _ _ _ _ => l

def Ast.endLineno : Ast → Option Nat
  | .mk _ _ e _ _ _ _ _ _ => e

def Ast.name : Ast → String
  | .mk _ _ _ nm _ _ _ _ _ => nm

def Ast.argsArgs : Ast → Nat
  | .mk _ _ _ _ aa _ _ _ _ => aa

def Ast.callee : Ast → Option String
  | .mk _ _ _ _ _ cal _ _ _ => cal

def Ast.hasReturns : Ast → Bool
  | .mk _ _ _ _ _ _ hr _ _ => hr

def Ast.hasExcType : Ast → Bool
  | .mk _ _ _ _ _ _ _ he _ => he

def AstList.toList : AstList → List Ast
  | .nil => []
  | .cons h t => h :: AstList.toList t

def Ast.childrenL : Ast → List Ast
  | .mk _ _ _ _ _ _ _ _ c => AstList.toList c

mutual
def Ast.size : Ast → Nat
  | .mk _ _ _ _ _ _ _ _ c => 1 + AstList.sizeL c
def AstList.sizeL : AstList → Nat
  | .nil => 0
  | .cons h t => Ast.size h + AstList.sizeL t
end

mutual
/-- Number of nodes of the whole tree satisfying `p`. -/
def Ast.countNodes (p : Ast → Bool) : Ast → Nat
  | .mk k l e nm aa cal hr he c =>
      (if p (.mk k l e nm aa cal hr he c) then 1 else 0) + AstList.countNodesL p c
def AstList.countNodesL (p : Ast → Bool) : AstList → Nat
  | .nil => 0
  | .cons h t => Ast.countNodes p h + AstList.countNodesL p t
end

/-- Breadth-first traversal queue step of `ast.walk`; the fuel argument is
always instantiated with the total tree size, which suffices for a complete
traversal (see `walkAux_complete_count`). -/
def walkAux : Nat → List Ast → List Ast
  | _, [] => []
  | 0, _ :: _ => []
  | Nat.succ fuel, n :: rest => n :: walkAux fuel (rest ++ n.childrenL)

/-- Python `ast.walk(root)`: every descendant node, root included, in
breadth-first order. -/
def walk (root : Ast) : List Ast := walkAux (Ast.size root) [root]

/-- Node predicates used by the checkers. -/
def Ast.isFuncLike (n : Ast) : Bool :=
  n.kind == .functionDef || n.kind == .asyncFunctionDef

def Ast.isAssert (n : Ast) : Bool := n.kind == .assertStmt

def Ast.isClassDef (n : Ast) : Bool := n.kind == .classDef

def Ast.isImportNode (n : Ast) : Bool :=
  n.kind == .importStmt || n.kind == .importFrom

def Ast.isPrintCall (n : Ast) : Bool :=
  n.kind == .callExpr && n.callee == some "print"

/-- Line span of a function definition:
`node.end_lineno - node.lineno + 1 if node.end_lineno else 0`. -/
def Ast.funcSpan (n : Ast) : Int :=
  match n.endLineno with
  | some e => (e : Int) - (n.lineno : Int) + 1
  | none => 0

/-! ### Paths and the filesystem interface -/

/-- A `pathlib.Path`, as its list of components; `[]` models `Path(".")`. -/
structure PyPath where
  parts : List String
deriving DecidableEq, Repr

/-- Python `path.name`: the final component, `""` for `Path(".")`. -/
def PyPath.name (p : PyPath) : String := (p.parts.getLast?).getD ""

/-- Python `str(path)`. -/
def PyPath.toStr (p : PyPath) : String :=
  match p.parts with
  | [] => "."
  | h :: t => t.foldl (fun acc s => acc ++ "/" ++ s) h

/-- Python `path.parent`; the parent of `Path(".")` is itself. -/
def PyPath.parent (p : PyPath) : PyPath := ⟨p.parts.dropLast⟩

/-- Python `path / s`. -/
def PyPath.join (p : PyPath) (s : String) : PyPath := ⟨p.parts ++ [s]⟩

/-- The filesystem capability the script reads: file existence, the raw lines
of each file on disk, and the result of `ast.parse` on its text (`none` for a
`SyntaxError`).  The parser itself is the external collaborator assumed
correct, so it enters the model only through this interface. -/
structure FileSystem where
  exists? : PyPath → Bool
  diskLines : PyPath → List String
  parseResult : PyPath → Option Ast

/-! ### Issue messages -/

def printMsg : String := "Use logging instead of print()"

def fileLongMsg (n : Nat) : String :=
  "File too long: " ++ toString n ++ " > " ++ toString MAX_FILE_LINES ++ " lines"

def funcLongMsg (nm : String) (len : Int) : String :=
  "Function '" ++ nm ++ "' too long: " ++ toString len ++ " > " ++
    toString MAX_FUNCTION_LINES ++ " lines"

def argsMsg (nm : String) (k : Nat) : String :=
  "Function '" ++ nm ++ "' has " ++ toString k ++ " args > " ++ toString MAX_FUNCTION_ARGS

def assertMsg : String := "Avoid assert in production code, use exceptions"

def commentedCodeMsg : String := "Remove commented-out code"

def todoMsg : String := "TODO must have author: TODO(username): message"

def returnTypeMsg (nm : String) : String :=
  "Function '" ++ nm ++ "' missing return type"

def secretMsg (pat : String) : String := "Possible hardcoded secret: " ++ pat

def bareExceptMsg : String := "Avoid bare except, catch specific exceptions"

def dynCallMsg (nm : String) : String := "Avoid " ++ nm ++ "() — security risk"

def tooManyClassesMsg (n : Nat) : String :=
  "Too many classes in file: " ++ toString n ++ " > " ++ toString MAX_CLASSES_PER_FILE

def classMethodsMsg (nm : String) (n : Nat) : String :=
  "Class '" ++ nm ++ "' has too many methods: " ++ toString n ++ " > " ++
    toString MAX_CLASS_METHODS

def importsMsg (n : Nat) : String :=
  "Too many imports: " ++ toString n ++ " > " ++ toString MAX_IMPORTS ++
    " — consider splitting"

def apiDocMsg : String := "API routes found but no openapi.yaml/json — architecture error"

/-! ### Rule checkers -/

/-- Issues `check_dev` appends for one walked node, in source order. -/
def devNodeIssues (f : PyPath) (n : Ast) : List Issue :=
  (if n.isPrintCall then [⟨"dev", f.toStr, n.lineno, printMsg⟩] else [])
    ++ (if n.isFuncLike && decide (n.funcSpan > (MAX_FUNCTION_LINES : Int)) then
          [⟨"dev", f.toStr, n.lineno, funcLongMsg n.name n.funcSpan⟩] else [])
    ++ (if n.isFuncLike && decide (n.argsArgs > MAX_FUNCTION_ARGS) then
          [⟨"dev", f.toStr, n.lineno, argsMsg n.name n.argsArgs⟩] else [])

/-- Developer role: basic code quality (`check_dev`). -/
def check_dev (f : PyPath) (t : Ast) (lines : List String) : List Issue :=
  (if lines.length > MAX_FILE_LINES then
     [⟨"dev", f.toStr, 1, fileLongMsg lines.length⟩] else [])
    ++ (walk t).flatMap (devNodeIssues f)

/-- Test-file detection of `check_tester`:
`file.name.startswith("test_") or "/tests/" in str(file)`. -/
def isTestFile (f : PyPath) : Bool :=
  strStarts f.name "test_" || containsSub f.toStr "/tests/"

/-- Tester role: test-related checks (`check_tester`). -/
def check_tester (f : PyPath) (t : Ast) (_lines : List String) : List Issue :=
  if isTestFile f then []
  else (walk t).flatMap (fun n =>
    if n.isAssert then [⟨"tester", f.toStr, n.lineno, assertMsg⟩] else [])

/-- Issues `check_reviewer` appends for one raw line `line` numbered `i`. -/
def reviewerLineIssues (f : PyPath) (i : Nat) (line : String) : List Issue :=
  (if strStarts (stripStr line) "#"
      && (["def ", "class ", "import ", "return "].any
            (fun kw => containsSub (stripStr line) kw)) then
     [⟨"reviewer", f.toStr, i, commentedCodeMsg⟩] else [])
    ++ (if containsSub line "TODO" && !containsSub line "TODO(" then
          [⟨"reviewer", f.toStr, i, todoMsg⟩] else [])

/-- Issues `check_reviewer` appends for one walked node. -/
def reviewerNodeIssues (f : PyPath) (n : Ast) : List Issue :=
  if n.isFuncLike then
    if strStarts n.name "_" then []
    else if !n.hasReturns && n.name ≠ "__init__" then
      [⟨"reviewer", f.toStr, n.lineno, returnTypeMsg n.name⟩]
    else []
  else []

/-- Reviewer role: code review standards (`check_reviewer`). -/
def check_reviewer (f : PyPath) (t : Ast) (lines : List String) : List Issue :=
  (lines.enumFrom 1).flatMap (fun pr => reviewerLineIssues f pr.1 pr.2)
    ++ (walk t).flatMap (reviewerNodeIssues f)

/-- The `secrets_patterns` list of `check_best_practice`. -/
def secretsPatterns : List String :=
  ["password", "secret", "api_key", "apikey", "token", "credential"]

/-- The per-pattern hardcoded-secret condition of `check_best_practice`. -/
def secretHit (line : String) (pat : String) : Bool :=
  containsSub (lowerStr line) pat && containsSub line "="
    && (containsSub line "\"" || containsSub line "'")
    && !containsSub line "os.getenv" && !containsSub line "environ"

/-- Issues `check_best_practice` appends for one raw line numbered `i`. -/
def bpLineIssues (f : PyPath) (i : Nat) (line : String) : List Issue :=
  secretsPatterns.flatMap (fun pat =>
    if secretHit line pat then [⟨"best_practice", f.toStr, i, secretMsg pat⟩] else [])

/-- Issues `check_best_practice` appends for one walked node. -/
def bpNodeIssues (f : PyPath) (n : Ast) : List Issue :=
  (if n.kind == .exceptHandler && !n.hasExcType then
     [⟨"best_practice", f.toStr, n.lineno, bareExceptMsg⟩] else [])
    ++ (if n.kind == .callExpr then
          match n.callee with
          | some cn => if cn == "eval" || cn == "exec" then
              [⟨"best_practice", f.toStr, n.lineno, dynCallMsg cn⟩] else []
          | none => []
        else [])

/-- Best-practice role: security and patterns (`check_best_practice`). -/
def check_best_practice (f : PyPath) (t : Ast) (lines : List String) : List Issue :=
  (lines.enumFrom 1).flatMap (fun pr => bpLineIssues f pr.1 pr.2)
    ++ (walk t).flatMap (bpNodeIssues f)

/-- The `while` loop of `check_architect` locating the package root; the fuel
equals the number of path components, exactly the number of `parent` steps
possible before `p = p.parent` ends the loop. -/
def findRootAux (fs : FileSystem) : Nat → PyPath → PyPath
  | 0, p => p
  | Nat.succ fuel, p =>
    if p.name = "packages" then p
    else if p = p.parent then p
    else if fs.exists? (p.join "pyproject.toml") then p
    else findRootAux fs fuel p.parent

def findPackageRoot (fs : FileSystem) (p : PyPath) : PyPath :=
  findRootAux fs p.parts.length p

/-- Architect role: structure and design (`check_architect`).  Beyond the
source unit it reads the filesystem: it re-reads the file text for the
route heuristic and probes for `pyproject.toml` and `openapi.*` files. -/
def check_architect (fs : FileSystem) (f : PyPath) (t : Ast) (_lines : List String) :
    List Issue :=
  let classes := (walk t).filter Ast.isClassDef
  (if classes.length > MAX_CLASSES_PER_FILE then
     [⟨"architect", f.toStr, 1, tooManyClassesMsg classes.length⟩] else [])
    ++ classes.flatMap (fun cls =>
        if (cls.childrenL.filter Ast.isFuncLike).length > MAX_CLASS_METHODS then
          [⟨"architect", f.toStr, cls.lineno,
            classMethodsMsg cls.name (cls.childrenL.filter Ast.isFuncLike).length⟩]
        else [])
    ++ (if ((walk t).filter Ast.isImportNode).length > MAX_IMPORTS then
          [⟨"architect", f.toStr, 1, importsMsg ((walk t).filter Ast.isImportNode).length⟩]
        else [])
    ++ (if (fs.diskLines f).any (fun line =>
            containsSub (lowerStr line) "router" || containsSub line "@app."
              || containsSub line "APIRouter") then
          (let root := findPackageRoot fs f.parent
           if !(fs.exists? (root.join "openapi.yaml") || fs.exists? (root.join "openapi.json")
                  || fs.exists? (root.join "openapi.yml"))
               && root.name ≠ "packages" then
             [⟨"architect", f.toStr, 1, apiDocMsg⟩]
           else [])
        else [])

/-! ### Registry, loader, aggregator, reporter, verdict -/

/-- The `ROLES` registry applied in its fixed insertion order. -/
def runCheckers (fs : FileSystem) (f : PyPath) (t : Ast) (lines : List String) :
    List Issue :=
  check_dev f t lines ++ check_tester f t lines ++ check_reviewer f t lines
    ++ check_best_practice f t lines ++ check_architect fs f t lines

/-- Loading one candidate path in `main`: a missing file is skipped, a parse
failure is skipped, otherwise every registered checker runs. -/
def loadAndCheck (fs : FileSystem) (f : PyPath) : List Issue :=
  if fs.exists? f then
    match fs.parseResult f with
    | none => []
    | some t => runCheckers fs f t (fs.diskLines f)
  else []

/-- All issues of the run, in collection order. -/
def collectIssues (fs : FileSystem) (files : List PyPath) : List Issue :=
  files.flatMap (loadAndCheck fs)

/-- Sort key of the report: the tuple `(issue.role, issue.file, issue.line)`
compared as Python does, lexicographically on the code points of the two
strings and numerically on the line. -/
def issueKey (i : Issue) : Lex (List Char × Lex (List Char × Nat)) :=
  toLex (i.role.data, toLex (i.file.data, i.line))

def keyLe (a b : Issue) : Prop := issueKey a ≤ issueKey b

instance : DecidableRel keyLe :=
  fun a b => inferInstanceAs (Decidable (issueKey a ≤ issueKey b))

/-- Python `sorted(all_issues, key=lambda x: (x.role, x.file, x.line))`:
a stable sort by `issueKey`; any stable sort yields the same list, and
insertion sort is stable. -/
def sortIssues (l : List Issue) : List Issue := l.insertionSort keyLe

def roleIcon (r : String) : String :=
  if r = "dev" then "👨‍💻" else if r = "tester" then "🧪"
  else if r = "reviewer" then "👀" else if r = "best_practice" then "✨"
  else if r = "architect" then "🏗️" else "•"

/-- The two printed lines for one reported issue. -/
def issueOut (i : Issue) : List String :=
  ["  " ++ roleIcon i.role ++ " [" ++ i.role ++ "] " ++ i.file ++ ":" ++ toString i.line,
   "      " ++ i.message ++ "\n"]

/-- The failure report of `main`. -/
def reportOut (issues : List Issue) : List String :=
  ["\n❌ Role Review Issues:\n"] ++ (sortIssues issues).flatMap issueOut
    ++ ["Total: " ++ toString issues.length ++ " issue(s)\n"]

/-- The body of `main`: the printed lines and the process exit status. -/
def mainRun (fs : FileSystem) (files : List PyPath) : List String × Nat :=
  if files.isEmpty then ([], 0)
  else
    let allIssues := collectIssues fs files
    if allIssues.isEmpty then (["✅ All role checks passed."], 0)
    else (reportOut allIssues, 1)

/-! ### Issue classifiers used to state the claims -/

/-- Recognizes the dev file-length issue by its message head. -/
def isFileLongIssue (i : Issue) : Bool := strStarts i.message "File too long:"

/-- Recognizes the dev argument-count issue: its message alone ends in the
digit of `MAX_FUNCTION_ARGS`, every other dev message ends in `s` or `)`. -/
def isArgsIssue (i : Issue) : Bool := i.message.data.getLast? == some '5'

/-- Recognizes the hardcoded-secret issue by its message head. -/
def isSecretIssue (i : Issue) : Bool := strStarts i.message "Possible hardcoded secret:"

/-- Test-file notion written in the claim: the file name begins with the
test prefix, or some directory segment of the path equals `tests`. -/
def specIndicatesTest (f : PyPath) : Bool :=
  strStarts f.name "test_" || f.parts.dropLast.contains "tests"

/-- Total size of a list of trees, the measure of the walk queue. -/
def astsSize (l : List Ast) : Nat := (l.map Ast.size).sum

/-! ### Concrete inputs used by counterexamples and evaluation theorems -/

/-- A file under a top-level `tests` directory whose name lacks the prefix. -/
def pTests : PyPath := ⟨["tests", "foo.py"]⟩

/-- A module holding one assert statement on line 1. -/
def tAssert : Ast :=
  .mk .module 0 none "" 0 none false false
    (.cons (.mk .assertStmt 1 (some 1) "" 0 none false false .nil) .nil)

/-- The 35-line private function with 6 positional arguments of the C7 scenario. -/
def fn7 : Ast := .mk .functionDef 10 (some 44) "_f" 6 none false false .nil

/-- The bare `except:` handler of the C7 scenario. -/
def exc7 : Ast := .mk .exceptHandler 50 (some 52) "" 0 none false false .nil

/-- The `try` statement wrapping the bare handler. -/
def try7 : Ast := .mk .other 48 (some 52) "" 0 none false false (.cons exc7 .nil)

/-- The module of the C7 scenario file. -/
def tree7 : Ast := .mk .module 0 none "" 0 none false false (.cons fn7 (.cons try7 .nil))

/-- The C7 scenario file path. -/
def p7 : PyPath := ⟨["big.py"]⟩

/-- The 201 raw lines of the C7 scenario file. -/
def lines7 : List String := List.replicate 201 "pass"

/-- A filesystem holding exactly the C7 scenario file. -/
def fs7 : FileSystem :=
  ⟨fun p => p = p7, fun p => if p = p7 then lines7 else [],
   fun p => if p = p7 then some tree7 else none⟩

/-- A source file outside any package, used against `check_architect`. -/
def p3 : PyPath := ⟨["app", "m.py"]⟩

/-- An empty module. -/
def t3 : Ast := .mk .module 0 none "" 0 none false false .nil

/-- Filesystem state where the on-disk text of `p3` mentions `APIRouter`. -/
def fs3a : FileSystem :=
  ⟨fun _ => false, fun p => if p = p3 then ["from fastapi import APIRouter"] else [],
   fun _ => none⟩

/-- Filesystem state where the on-disk text of `p3` is empty. -/
def fs3b : FileSystem := ⟨fun _ => false, fun _ => [], fun _ => none⟩

/-- The config file of the C6 scenario. -/
def p6 : PyPath := ⟨["config.py"]⟩

/-- A module with one plain assignment statement on line 1. -/
def t6a : Ast :=
  .mk .module 0 none "" 0 none false false
    (.cons (.mk .other 1 (some 1) "" 0 none false false .nil) .nil)

/-- A module whose line-1 assignment calls an attribute (`os.getenv`). -/
def t6b : Ast :=
  .mk .module 0 none "" 0 none false false
    (.cons (.mk .other 1 (some 1) "" 0 none false false
      (.cons (.mk .callExpr 1 none "" 0 none false false .nil) .nil)) .nil)

/-! ### List and traversal lemmas -/

theorem strData_append (a b : String) : (a ++ b).data = a.data ++ b.data := rfl

theorem flatMap_if_singleton {α β : Type} (l : List α) (p : α → Bool) (g : α → β) :
    (l.flatMap fun x => if p x then [g x] else []) = (l.filter p).map g := by
  induction l with
  | nil => rfl
  | cons a t ih =>
    simp only [List.flatMap_cons, List.filter_cons]
    cases h : p a <;> simp [h, ih]

theorem filter_flatMap {α β : Type} (l : List α) (g : α → List β) (q : β → Bool) :
    (l.flatMap g).filter q = l.flatMap (fun x => (g x).filter q) := by
  induction l with
  | nil => rfl
  | cons a t ih => simp [List.flatMap_cons, List.filter_append, ih]

theorem filter_flatMap_nil {α β : Type} (l : List α) (g : α → List β) (q : β → Bool)
    (h : ∀ x, (g x).filter q = []) : (l.flatMap g).filter q = [] := by
  rw [filter_flatMap]
  induction l with
  | nil => rfl
  | cons a t ih => simp [List.flatMap_cons, h, ih]

theorem size_toList : (c : AstList) → astsSize (AstList.toList c) = AstList.sizeL c
  | .nil => rfl
  | .cons hd tl => by
    have ih := size_toList tl
    simp only [AstList.toList, AstList.sizeL, astsSize, List.map_cons, List.sum_cons] at *
    omega

theorem size_children (n : Ast) : Ast.size n = 1 + astsSize n.childrenL := by
  cases n with
  | mk k l e nm aa cal hr he c => simp [Ast.size, Ast.childrenL, size_toList]

theorem size_pos (n : Ast) : 1 ≤ Ast.size n := by
  cases n with
  | mk k l e nm aa cal hr he c => simp [Ast.size]

theorem countNodesL_toList (p : Ast → Bool) :
    (c : AstList) → ((AstList.toList c).map (Ast.countNodes p)).sum = AstList.countNodesL p c
  | .nil => rfl
  | .cons hd tl => by
    have ih := countNodesL_toList p tl
    simp only [AstList.toList, AstList.countNodesL, List.map_cons, List.sum_cons] at *
    omega

theorem countNodes_children (p : Ast → Bool) (n : Ast) :
    Ast.countNodes p n = (if p n then 1 else 0) + ((n.childrenL).map (Ast.countNodes p)).sum := by
  cases n with
  | mk k l e nm aa cal hr he c =>
    simp [Ast.countNodes, Ast.childrenL, countNodesL_toList]

theorem astsSize_append (l1 l2 : List Ast) :
    astsSize (l1 ++ l2) = astsSize l1 + astsSize l2 := by
  simp [astsSize]

/-- With fuel at least the total size of the queue, the breadth-first
traversal visits each node of each queued tree exactly once. -/
theorem walkAux_complete_count (p : Ast → Bool) :
    ∀ (fuel : Nat) (l : List Ast), astsSize l ≤ fuel →
      (walkAux fuel l).countP p = (l.map (Ast.countNodes p)).sum := by
  intro fuel
  induction fuel with
  | zero =>
    intro l hl
    cases l with
    | nil => rfl
    | cons n rest =>
      exfalso
      have h1 := size_pos n
      simp only [astsSize, List.map_cons, List.sum_cons] at hl
      omega
  | succ f ih =>
    intro l hl
    cases l with
    | nil => rfl
    | cons n rest =>
      have hsz : astsSize (rest ++ n.childrenL) ≤ f := by
        rw [astsSize_append]
        have h2 := size_children n
        simp only [astsSize, List.map_cons, List.sum_cons] at hl
        simp only [astsSize] at h2 ⊢
        omega
      simp only [walkAux, List.countP_cons]
      rw [ih (rest ++ n.childrenL) hsz, List.map_append, List.sum_append,
        List.map_cons, List.sum_cons, countNodes_children]
      cases h : p n <;> simp [h] <;> omega

/-- Counting over the walk agrees with counting over the tree. -/
theorem walk_count (p : Ast → Bool) (t : Ast) :
    (walk t).countP p = Ast.countNodes p t := by
  unfold walk
  rw [walkAux_complete_count p (Ast.size t) [t] (by simp [astsSize])]
  simp

/-! ### Message classification lemmas -/

theorem fileLongMsg_starts (n : Nat) : strStarts (fileLongMsg n) "File too long:" = true := rfl

theorem funcLongMsg_not_fileLong (nm : String) (k : Int) :
    strStarts (funcLongMsg nm k) "File too long:" = false := rfl

theorem argsMsg_not_fileLong (nm : String) (k : Nat) :
    strStarts (argsMsg nm k) "File too long:" = false := rfl

theorem printMsg_not_fileLong : strStarts printMsg "File too long:" = false := by decide

theorem argsMsg_last (nm : String) (k : Nat) : (argsMsg nm k).data.getLast? = some '5' := by
  show ((("Function '" ++ nm ++ "' has " ++ toString k ++ " args > ") ++ "5").data).getLast?
      = some '5'
  rw [strData_append, List.getLast?_append]
  rfl

theorem funcLongMsg_last (nm : String) (k : Int) :
    (funcLongMsg nm k).data.getLast? = some 's' := by
  rw [funcLongMsg, strData_append, List.getLast?_append]
  rfl

theorem fileLongMsg_last (n : Nat) : (fileLongMsg n).data.getLast? = some 's' := by
  rw [fileLongMsg, strData_append, List.getLast?_append]
  rfl

theorem printMsg_last : printMsg.data.getLast? = some ')' := by decide

theorem secretMsg_starts (pat : String) :
    strStarts (secretMsg pat) "Possible hardcoded secret:" = true := rfl

theorem dynCallMsg_not_secret (cn : String) :
    strStarts (dynCallMsg cn) "Possible hardcoded secret:" = false := rfl

theorem bareExceptMsg_not_secret :
    strStarts bareExceptMsg "Possible hardcoded secret:" = false := by decide

theorem returnTypeMsg_ne_todo (nm : String) : (returnTypeMsg nm == todoMsg) = false := rfl

theorem commentedCodeMsg_ne_todo : (commentedCodeMsg == todoMsg) = false := by decide

/-! ### Order facts for the sort key -/

instance : IsTotal Issue keyLe := ⟨fun a b => le_total (issueKey a) (issueKey b)⟩

instance : IsTrans Issue keyLe := ⟨fun _ _ _ hab hbc => le_trans hab hbc⟩

/-! ### Claim C1 -/

/-- C1.  The exit status of a run is 0 exactly when no issue was collected
across the loadable source units, and 1 exactly when the issue list is
non-empty; an empty input file list yields exit 0 with no output at all. -/
theorem c1_exit_semantics (fs : FileSystem) (files : List PyPath) :
    ((mainRun fs files).2 = 0 ↔ collectIssues fs files = [])
      ∧ ((mainRun fs files).2 = 1 ↔ collectIssues fs files ≠ [])
      ∧ mainRun fs [] = ([], 0) := by
  refine ⟨?_, ?_, rfl⟩ <;>
  · unfold mainRun
    cases files with
    | nil => simp [collectIssues]
    | cons f rest =>
      simp only [List.isEmpty_cons, Bool.false_eq_true, if_false]
      cases h : collectIssues fs (f :: rest) <;> simp [h]

/-! ### Claim C2 -/

/-- C2.  The rendered report is sorted: whenever issue `A` appears before
issue `B`, the key `(A.role, A.file, A.line)` is lexicographically at most
`(B.role, B.file, B.line)`; and the sorted list is a permutation of the
collected issues. -/
theorem c2_sorted_report (fs : FileSystem) (files : List PyPath) :
    List.Sorted keyLe (sortIssues (collectIssues fs files))
      ∧ (sortIssues (collectIssues fs files)).Perm (collectIssues fs files) :=
  ⟨List.sorted_insertionSort keyLe (collectIssues fs files),
   List.perm_insertionSort keyLe (collectIssues fs files)⟩

/-! ### Claim C3 -/

/-- Every issue the architect checker emits carries the `architect` role, so
filtering it away empties its output. -/
theorem arch_filter_nonarch (fs : FileSystem) (f : PyPath) (t : Ast) (lines : List String) :
    (check_architect fs f t lines).filter (fun i => !(i.role == "architect")) = [] := by
  rw [List.filter_eq_nil_iff]
  intro i hi
  suffices h : i.role = "architect" by simp [h]
  simp only [check_architect, List.mem_append] at hi
  rcases hi with ((h | h) | h) | h
  · split at h <;> simp at h
    rw [h]
  · rw [List.mem_flatMap] at h
    obtain ⟨cls, _, hin⟩ := h
    split at hin <;> simp at hin
    rw [hin]
  · split at h <;> simp at h
    rw [h]
  · split at h
    · split at h <;> simp at h
      rw [h]
    · simp at h

/-- C3 (counterexample).  `check_architect` is not a function of the source
unit alone: with the same path, tree and raw lines, two filesystem states
give different issue lists, because the checker re-reads the file text from
disk and probes for `pyproject.toml` and `openapi.*` files. -/
theorem c3_architect_not_sourceunit_function :
    check_architect fs3a p3 t3 [] ≠ check_architect fs3b p3 t3 []
      ∧ check_architect fs3a p3 t3 [] = [⟨"architect", "app/m.py", 1, apiDocMsg⟩]
      ∧ check_architect fs3b p3 t3 [] = [] := by decide

/-- C3 (amended).  The dev, tester, reviewer and best-practice checkers are
pure functions of the source unit `(path, tree, raw lines)`; only the
architect role depends on the filesystem state, so the non-architect part of
a run's issues is independent of it. -/
theorem c3_nonarchitect_fs_independent (fs fs' : FileSystem) (f : PyPath) (t : Ast)
    (lines : List String) :
    (runCheckers fs f t lines).filter (fun i => !(i.role == "architect"))
      = (runCheckers fs' f t lines).filter (fun i => !(i.role == "architect")) := by
  unfold runCheckers
  simp only [List.filter_append, arch_filter_nonarch]

/-! ### Claim C4 -/

/-- C4 (counterexample).  A file directly under a top-level `tests` directory
has a `tests` directory segment, so the claim calls it a test file, yet the
tester checker still reports its assert statement: the code tests for the
substring `"/tests/"` in `str(file)`, which a leading `tests/` segment never
matches. -/
theorem c4_leading_tests_dir_not_exempt :
    specIndicatesTest pTests = true
      ∧ check_tester pTests tAssert ["assert True"]
          = [⟨"tester", "tests/foo.py", 1, assertMsg⟩]
      ∧ check_tester pTests tAssert ["assert True"] ≠ [] := by decide

/-- C4 (amended).  With a test file meaning one whose name begins with
`test_` or whose path contains `/tests/` as a substring (a `tests` segment
that is not the leading one), the tester checker returns no issue for test
files, and for any other file returns exactly one issue per assert node of
the tree. -/
theorem c4_tester_amended (p : PyPath) (t : Ast) (lines : List String) :
    check_tester p t lines
        = (if isTestFile p then []
           else ((walk t).filter Ast.isAssert).map
             (fun n => ⟨"tester", p.toStr, n.lineno, assertMsg⟩))
      ∧ (check_tester p t lines).length
        = (if isTestFile p then 0 else Ast.countNodes Ast.isAssert t) := by
  have h1 : check_tester p t lines
      = (if isTestFile p then []
         else ((walk t).filter Ast.isAssert).map
           (fun n => ⟨"tester", p.toStr, n.lineno, assertMsg⟩)) := by
    unfold check_tester
    split
    · rfl
    · rw [flatMap_if_singleton]
  refine ⟨h1, ?_⟩
  rw [h1]
  split
  · rfl
  · rw [List.length_map, ← List.countP_eq_length_filter, walk_count]

/-! ### Claim C5 -/

/-- C5.  The dev checker reports the file-length issue exactly when the raw
line count exceeds 200, and then exactly once, at line 1, citing the actual
count against the limit. -/
theorem c5_file_too_long (f : PyPath) (t : Ast) (lines : List String) :
    (check_dev f t lines).filter isFileLongIssue
      = (if lines.length > MAX_FILE_LINES then
          [⟨"dev", f.toStr, 1, fileLongMsg lines.length⟩] else []) := by
  unfold check_dev
  rw [List.filter_append, filter_flatMap_nil _ _ _ ?hnode, List.append_nil]
  case hnode =>
    intro n
    unfold devNodeIssues
    rw [List.filter_append, List.filter_append]
    have h1 : (if n.isPrintCall then ([⟨"dev", f.toStr, n.lineno, printMsg⟩] : List Issue)
        else []).filter isFileLongIssue = [] := by
      split <;> simp [isFileLongIssue, printMsg_not_fileLong]
    have h2 : (if n.isFuncLike && decide (n.funcSpan > (MAX_FUNCTION_LINES : Int)) then
        ([⟨"dev", f.toStr, n.lineno, funcLongMsg n.name n.funcSpan⟩] : List Issue)
        else []).filter isFileLongIssue = [] := by
      split <;> simp [isFileLongIssue, funcLongMsg_not_fileLong]
    have h3 : (if n.isFuncLike && decide (n.argsArgs > MAX_FUNCTION_ARGS) then
        ([⟨"dev", f.toStr, n.lineno, argsMsg n.name n.argsArgs⟩] : List Issue)
        else []).filter isFileLongIssue = [] := by
      split <;> simp [isFileLongIssue, argsMsg_not_fileLong]
    rw [h1, h2, h3]
    rfl
  split
  · simp [isFileLongIssue, fileLongMsg_starts]
  · rfl

/-! ### Claim C8 -/

/-- C8.  The argument-count issues of the dev checker are exactly one issue
per walked function or coroutine definition with more than 5 positional
parameters, citing the definition's actual parameter count; definitions at
or under the limit contribute none. -/
theorem c8_too_many_args (f : PyPath) (t : Ast) (lines : List String) :
    (check_dev f t lines).filter isArgsIssue
      = ((walk t).filter
            (fun n => n.isFuncLike && decide (n.argsArgs > MAX_FUNCTION_ARGS))).map
          (fun n => ⟨"dev", f.toStr, n.lineno, argsMsg n.name n.argsArgs⟩) := by
  unfold check_dev
  rw [List.filter_append]
  have hfile : (if lines.length > MAX_FILE_LINES then
      ([⟨"dev", f.toStr, 1, fileLongMsg lines.length⟩] : List Issue)
      else []).filter isArgsIssue = [] := by
    split <;> simp [isArgsIssue, fileLongMsg_last]
  rw [hfile, List.nil_append, filter_flatMap]
  have hnode : ∀ n, (devNodeIssues f n).filter isArgsIssue
      = (if n.isFuncLike && decide (n.argsArgs > MAX_FUNCTION_ARGS) then
          [⟨"dev", f.toStr, n.lineno, argsMsg n.name n.argsArgs⟩] else []) := by
    intro n
    unfold devNodeIssues
    rw [List.filter_append, List.filter_append]
    have h1 : (if n.isPrintCall then ([⟨"dev", f.toStr, n.lineno, printMsg⟩] : List Issue)
        else []).filter isArgsIssue = [] := by
      split <;> simp [isArgsIssue, printMsg_last]
    have h2 : (if n.isFuncLike && decide (n.funcSpan > (MAX_FUNCTION_LINES : Int)) then
        ([⟨"dev", f.toStr, n.lineno, funcLongMsg n.name n.funcSpan⟩] : List Issue)
        else []).filter isArgsIssue = [] := by
      split <;> simp [isArgsIssue, funcLongMsg_last]
    have h3 : (if n.isFuncLike && decide (n.argsArgs > MAX_FUNCTION_ARGS) then
        ([⟨"dev", f.toStr, n.lineno, argsMsg n.name n.argsArgs⟩] : List Issue)
        else []).filter isArgsIssue
        = (if n.isFuncLike && decide (n.argsArgs > MAX_FUNCTION_ARGS) then
            [⟨"dev", f.toStr, n.lineno, argsMsg n.name n.argsArgs⟩] else []) := by
      split <;> simp [isArgsIssue, argsMsg_last]
    rw [h1, h2, h3]
    rfl
  simp only [hnode]
  rw [flatMap_if_singleton]

/-! ### Claim C6 -/

/-- C6.  A file whose single raw line is `TOKEN = "abc123"` gets exactly one
best-practice hardcoded-secret issue, for the keyword `token` on line 1; the
same line rewritten as `TOKEN = os.getenv("TOKEN")` gets none. -/
theorem c6_hardcoded_secret_example :
    check_best_practice p6 t6a ["TOKEN = \"abc123\""]
        = [⟨"best_practice", "config.py", 1, secretMsg "token"⟩]
      ∧ check_best_practice p6 t6b ["TOKEN = os.getenv(\"TOKEN\")"] = [] := by decide

/-! ### Claim C7 -/

/-- C7 (counterexample).  The scenario file — 201 lines, one 35-line function
with 6 positional parameters, one bare except handler — yields 4 issues, not
the 3 the claim states: the function-length and argument-count findings are
separate dev issues in this implementation. -/
theorem c7_four_issues_not_three :
    (collectIssues fs7 [p7]).length = 4
      ∧ (collectIssues fs7 [p7]).length ≠ 3
      ∧ lines7.length = 201 ∧ fn7.funcSpan = 35 ∧ fn7.argsArgs = 6
      ∧ exc7.kind = .exceptHandler ∧ exc7.hasExcType = false := by decide

/-- C7 (amended).  The scenario yields exactly 4 issues — dev file-too-long,
dev function-too-long and dev too-many-args as separate findings, plus the
best-practice bare-except finding — and in the sorted report the
best-practice issue precedes every dev issue; the run fails with exit 1. -/
theorem c7_scenario_amended :
    sortIssues (collectIssues fs7 [p7]) =
        [⟨"best_practice", "big.py", 50, bareExceptMsg⟩,
         ⟨"dev", "big.py", 1, fileLongMsg 201⟩,
         ⟨"dev", "big.py", 10, funcLongMsg "_f" 35⟩,
         ⟨"dev", "big.py", 10, argsMsg "_f" 6⟩]
      ∧ (mainRun fs7 [p7]).2 = 1 := by decide

/-! ### Per-line block accounting shared by C9 and C10 -/

/-- Filtering a per-line issue expansion for one target line number `i`
selects exactly the block of the line numbered `i`. -/
theorem flatMap_enumFrom_filter_len (g : Nat → String → List Issue) (q : Issue → Bool)
    (cnt : String → Nat) (i : Nat)
    (hblock : ∀ j line, ((g j line).filter q).length = if j = i then cnt line else 0) :
    ∀ (lines : List String) (s : Nat),
      (((lines.enumFrom s).flatMap (fun pr => g pr.1 pr.2)).filter q).length
        = if s ≤ i then
            (match lines.get? (i - s) with
             | some line => cnt line
             | none => 0)
          else 0 := by
  intro lines
  induction lines with
  | nil =>
    intro s
    simp only [List.enumFrom, List.flatMap_nil, List.filter_nil, List.length_nil,
      List.get?_nil]
    split <;> rfl
  | cons line rest ih =>
    intro s
    rw [show (line :: rest).enumFrom s = (s, line) :: rest.enumFrom (s + 1) from rfl,
      List.flatMap_cons, List.filter_append, List.length_append, hblock s line,
      ih (s + 1)]
    rcases Nat.lt_trichotomy s i with hlt | heq | hgt
    · rw [if_neg (by omega), if_pos (by omega), if_pos (by omega)]
      have hsub : i - s = (i - (s + 1)) + 1 := by omega
      rw [hsub]
      simp only [Nat.zero_add, List.get?_cons_succ]
    · subst heq
      rw [if_pos rfl, if_neg (by omega), if_pos (by omega)]
      simp
    · rw [if_neg (by omega), if_neg (by omega), if_neg (by omega)]

/-! ### Claim C9 -/

/-- One line's hardcoded-secret block, filtered for line `i`: the issue count
is the number of secret keywords the line matches, and only for `j = i`. -/
theorem bpLine_block (f : PyPath) (i j : Nat) (line : String) :
    ((bpLineIssues f j line).filter
        (fun is => isSecretIssue is && is.line == i)).length
      = if j = i then secretsPatterns.countP (secretHit line) else 0 := by
  unfold bpLineIssues
  rw [flatMap_if_singleton]
  by_cases hji : j = i
  · subst hji
    rw [if_pos rfl]
    have hall : ((secretsPatterns.filter (secretHit line)).map
        (fun pat => (⟨"best_practice", f.toStr, j, secretMsg pat⟩ : Issue))).filter
          (fun is => isSecretIssue is && is.line == j)
        = (secretsPatterns.filter (secretHit line)).map
            (fun pat => (⟨"best_practice", f.toStr, j, secretMsg pat⟩ : Issue)) := by
      rw [List.filter_eq_self]
      intro a ha
      rw [List.mem_map] at ha
      obtain ⟨pat, _, rfl⟩ := ha
      simp [isSecretIssue, secretMsg_starts]
    rw [hall, List.length_map, ← List.countP_eq_length_filter]
  · rw [if_neg hji, List.length_eq_zero]
    rw [List.filter_eq_nil_iff]
    intro a ha
    rw [List.mem_map] at ha
    obtain ⟨pat, _, rfl⟩ := ha
    simp [hji]

/-- The node-walking part of the best-practice checker emits no issue whose
message is a hardcoded-secret message. -/
theorem bpNode_no_secret (f : PyPath) (t : Ast) (q : Issue → Bool)
    (hq : ∀ is, q is = true → isSecretIssue is = true) :
    ((walk t).flatMap (bpNodeIssues f)).filter q = [] := by
  apply filter_flatMap_nil
  intro n
  rw [List.filter_eq_nil_iff]
  intro a ha
  intro hqa
  have hsec := hq a hqa
  unfold bpNodeIssues at ha
  rw [List.mem_append] at ha
  rcases ha with h | h
  · split at h <;> simp at h
    rw [h] at hsec
    rw [isSecretIssue] at hsec
    simp [bareExceptMsg_not_secret] at hsec
  · split at h
    · rcases hcal : n.callee with _ | cn <;> simp [hcal] at h
      obtain ⟨-, rfl⟩ := h
      rw [isSecretIssue] at hsec
      simp [dynCallMsg_not_secret] at hsec
    · simp at h

/-- C9.  For any target line number `i`, the best-practice checker emits one
hardcoded-secret issue per secret keyword matching line `i` — `k`
simultaneously matching keywords give `k` separate issues for that single
line, never one combined issue. -/
theorem c9_secret_issue_per_keyword (f : PyPath) (t : Ast) (lines : List String) (i : Nat) :
    ((check_best_practice f t lines).filter
        (fun is => isSecretIssue is && is.line == i)).length
      = if 1 ≤ i then
          (match lines.get? (i - 1) with
           | some line => secretsPatterns.countP (secretHit line)
           | none => 0)
        else 0 := by
  unfold check_best_practice
  rw [List.filter_append, List.length_append]
  rw [bpNode_no_secret f t _ (fun is h => by
    rcases Bool.and_eq_true .. |>.mp h with ⟨h1, _⟩
    exact h1)]
  rw [List.length_nil]
  rw [flatMap_enumFrom_filter_len (fun j line => bpLineIssues f j line) _
    (fun line => secretsPatterns.countP (secretHit line)) i
    (fun j line => bpLine_block f i j line) lines 1]
  rw [Nat.add_zero]

/-! ### Claim C10 -/

/-- One line's reviewer block, filtered for the TODO-attribution message at
line `i`: at most one issue per line, present exactly when the line holds
`TODO` but not `TODO(`. -/
theorem reviewerLine_block (f : PyPath) (i j : Nat) (line : String) :
    ((reviewerLineIssues f j line).filter
        (fun is => is.message == todoMsg && is.line == i)).length
      = if j = i then
          (if containsSub line "TODO" && !containsSub line "TODO(" then 1 else 0)
        else 0 := by
  unfold reviewerLineIssues
  rw [List.filter_append, List.length_append]
  have h1 : (if strStarts (stripStr line) "#"
        && (["def ", "class ", "import ", "return "].any
              (fun kw => containsSub (stripStr line) kw)) then
      ([⟨"reviewer", f.toStr, j, commentedCodeMsg⟩] : List Issue) else []).filter
        (fun is => is.message == todoMsg && is.line == i) = [] := by
    split <;> simp [commentedCodeMsg_ne_todo]
  rw [h1, List.length_nil, Nat.zero_add]
  by_cases hji : j = i
  · subst hji
    rw [if_pos rfl]
    split <;> simp
  · rw [if_neg hji]
    split <;> simp [hji]

/-- The declaration-walking part of the reviewer checker never emits the
TODO-attribution message. -/
theorem reviewerNode_no_todo (f : PyPath) (t : Ast) (q : Issue → Bool)
    (hq : ∀ is, q is = true → (is.message == todoMsg) = true) :
    ((walk t).flatMap (reviewerNodeIssues f)).filter q = [] := by
  apply filter_flatMap_nil
  intro n
  rw [List.filter_eq_nil_iff]
  intro a ha hqa
  have hmsg := hq a hqa
  unfold reviewerNodeIssues at ha
  split at ha
  · split at ha
    · simp at ha
    · split at ha
      · simp at ha
        rw [ha] at hmsg
        simp [returnTypeMsg_ne_todo] at hmsg
      · simp at ha
  · simp at ha

/-- C10.  For any target line number `i`, the reviewer checker emits no
TODO-attribution issue when line `i` contains `TODO(` anywhere (even beside
another unattributed `TODO`), and exactly one such issue — never more — when
the line contains `TODO` without any `TODO(`. -/
theorem c10_todo_attribution (f : PyPath) (t : Ast) (lines : List String) (i : Nat) :
    ((check_reviewer f t lines).filter
        (fun is => is.message == todoMsg && is.line == i)).length
      = if 1 ≤ i then
          (match lines.get? (i - 1) with
           | some line =>
               if containsSub line "TODO" && !containsSub line "TODO(" then 1 else 0
           | none => 0)
        else 0 := by
  unfold check_reviewer
  rw [List.filter_append, List.length_append]
  rw [reviewerNode_no_todo f t _ (fun is h => (Bool.and_eq_true .. |>.mp h).1)]
  rw [List.length_nil]
  rw [flatMap_enumFrom_filter_len (fun j line => reviewerLineIssues f j line) _
    (fun line => if containsSub line "TODO" && !containsSub line "TODO(" then 1 else 0) i
    (fun j line => reviewerLine_block f i j line) lines 1]
  rw [Nat.add_zero]
